import Mathlib

/-!
# Verification of the quiz-bot session engine, score store and leaderboard

Shallow embedding of `src/bot.py` (Quiz Bot, version 10).  Python dicts that
preserve insertion order are embedded as association lists; the global mutable
variables `scores` and `context.user_data` are threaded explicitly through the
handler functions as a `SysState`.  `random.choice` is embedded with an oracle
argument `pick : Nat`: the chosen element of a non-empty list `qs` is
`qs[pick % qs.length]`, so every element is a possible outcome.  Filesystem
interaction of the two loaders is embedded as an explicit file-state datatype,
and `raise SystemExit` becomes `Except.error ()`.
-/

namespace QuizBot

/-- A score record, the value type of the `scores` dict:
`{"name": str, "score": int}`.  Python integers are unbounded, so `score` is
embedded as `Int`. -/
structure ScoreRec where
  name : String
  score : Int
deriving Repr, DecidableEq

/-- The `scores` dict `{ user_id : {"name": str, "score": int} }`, as an
insertion-ordered association list (Python dicts preserve insertion order). -/
abbrev Scores := List (String × ScoreRec)

/-- One entry of a category's question list in `questions.json`:
`{question: str, options: list[str], answer: str}`. -/
structure Question where
  question : String
  options : List String
  answer : String
deriving Repr, DecidableEq

/-- The `quiz_data` dict loaded from `questions.json`: category name to ordered
question list. -/
abbrev Catalog := List (String × List Question)

/-- Python dict lookup `d.get(k)` / `k in d` on an insertion-ordered
association list. -/
def dictGet {α : Type} (d : List (String × α)) (k : String) : Option α :=
  (d.find? (fun p => p.1 == k)).map (fun p => p.2)

/-- Python dict assignment `d[k] = v`: update in place when the key exists,
append at the end otherwise (insertion order is preserved). -/
def dictSet {α : Type} (d : List (String × α)) (k : String) (v : α) :
    List (String × α) :=
  match d with
  | [] => [(k, v)]
  | p :: rest => if p.1 == k then (k, v) :: rest else p :: dictSet rest k v

/-- The score the bot's handlers observe for `u`: an existing record's
`score`, or the default `0` that every creation path
(`scores[user_id] = {"name": ..., "score": 0}`) uses for an absent record. -/
def valOf (s : Scores) (u : String) : Int :=
  match dictGet s u with
  | some r => r.score
  | none => 0

/-- The `context.user_data` dict for one user: the keys `bot.py` stores in it. -/
structure UserData where
  current_category : Option String
  current_question : Option Question
deriving Repr, DecidableEq

/-- The mutable state a handler invocation can touch: the global `scores`
dict and the invoking user's `context.user_data`. -/
structure SysState where
  scores : Scores
  ud : UserData
deriving Repr, DecidableEq

/-- Replace every non-overlapping occurrence of `pat` in the character list,
scanning left to right.  The fuel argument makes the recursion structural;
`fuel = s.length` suffices because a non-empty `pat` consumes at least one
character per match. -/
def replaceAllAux (pat rep : List Char) : Nat → List Char → List Char
  | 0, s => s
  | _ + 1, [] => []
  | fuel + 1, c :: rest =>
    if pat.isPrefixOf (c :: rest) then
      rep ++ replaceAllAux pat rep fuel ((c :: rest).drop pat.length)
    else
      c :: replaceAllAux pat rep fuel rest

/-- Python's `s.replace(pat, rep)` for a non-empty pattern: replace all
non-overlapping occurrences from the left.  (The bot only calls this with the
fixed pattern `"category_"`, so the empty-pattern behaviour is irrelevant and
embedded as the identity.) -/
def pyReplace (s pat rep : String) : String :=
  if pat.isEmpty then s
  else ⟨replaceAllAux pat.data rep.data s.data.length s.data⟩

/-- Embeds `get_new_question` (bot.py:138-142): `None` when the category is missing
from `quiz_data` or its list is empty, otherwise `random.choice` of the list,
embedded with the oracle index `pick`. -/
def get_new_question (quiz_data : Catalog) (pick : Nat) (category : String) :
    Option Question :=
  match dictGet quiz_data category with
  | none => none
  | some qs =>
    if qs.isEmpty then none
    else qs[pick % qs.length]?

/-- Outcome of `select_category_handler` as rendered to the user. -/
inductive SelectReply
  | unknownCategory
  | noQuestions
  | questionSent (category : String) (q : Question)
deriving Repr, DecidableEq

/-- Embeds `select_category_handler` (bot.py:231-254).  Strips the `category_`
prefix via `str.replace`, rejects unknown categories, then stores
`current_category` BEFORE asking `get_new_question`, so an empty category
still mutates the session.  Never touches `scores`. -/
def select_category_handler (quiz_data : Catalog) (st : SysState)
    (data : String) (pick : Nat) : SysState × SelectReply :=
  let category := pyReplace data "category_" ""
  if (dictGet quiz_data category).isNone then
    (st, .unknownCategory)
  else
    let st1 : SysState :=
      { st with ud := { st.ud with current_category := some category } }
    match get_new_question quiz_data pick category with
    | none => (st1, .noQuestions)
    | some question_data =>
      ({ st1 with ud := { st1.ud with current_question := some question_data } },
       .questionSent category question_data)

/-- Outcome of `button_handler` as rendered to the user. -/
inductive AnswerReply
  | startNewQuiz
  | outcome (correct : Bool) (correctAnswer : String) (score : Int)
deriving Repr, DecidableEq

/-- Embeds `button_handler` (bot.py:256-286), the answer-button handler.  The Python
body ensures a record `{"name": name, "score": 0}` exists, refreshes the name,
adds 1 to the stored score iff `selected == correct`, and always calls
`save_scores`; the net record is `{name, prev + 1}` or `{name, prev}` where
`prev` is the previously stored score (0 for a fresh record), which is
`valOf st.scores user_id`.  `context.user_data` is NOT modified: in
particular `current_question` stays set after a resolution.  The trailing
`Bool` records whether `save_scores` was called. -/
def button_handler (st : SysState) (user_id name selected : String) :
    SysState × AnswerReply × Bool :=
  match st.ud.current_question with
  | none => (st, .startNewQuiz, false)
  | some question_data =>
    let correct := question_data.answer
    let prev := valOf st.scores user_id
    if selected == correct then
      ({ st with scores := dictSet st.scores user_id ⟨name, prev + 1⟩ },
       .outcome true correct (prev + 1), true)
    else
      ({ st with scores := dictSet st.scores user_id ⟨name, prev⟩ },
       .outcome false correct prev, true)

/-- Outcome of `next_question_handler` as rendered to the user. -/
inductive NextReply
  | ignored
  | selectCategoryFirst
  | noMoreQuestions
  | questionSent (q : Question)
deriving Repr, DecidableEq

/-- Embeds `next_question_handler` (bot.py:288-312), the "Next Question" button.
Guards on the callback payload, falls back to "select a category" when
`current_category` is unset (or the falsy empty string), otherwise serves
another `get_new_question` draw.  There is no question index and no
"category complete" outcome; the session is never cleared and `scores` is
never touched. -/
def next_question_handler (quiz_data : Catalog) (st : SysState)
    (data : String) (pick : Nat) : SysState × NextReply :=
  if data != "next_question" then (st, .ignored)
  else
    match st.ud.current_category with
    | none => (st, .selectCategoryFirst)
    | some category =>
      if category == "" then (st, .selectCategoryFirst)
      else
        match get_new_question quiz_data pick category with
        | none => (st, .noMoreQuestions)
        | some question_data =>
          ({ st with ud := { st.ud with current_question := some question_data } },
           .questionSent question_data)

/-- Embeds `start` (bot.py:201-222): create the record with score 0 on first
contact, else refresh the name; always `save_scores` (the returned `Bool`). -/
def start (st : SysState) (user_id user_name : String) : SysState × Bool :=
  let scores1 :=
    match dictGet st.scores user_id with
    | none => dictSet st.scores user_id ⟨user_name, 0⟩
    | some r => dictSet st.scores user_id { r with name := user_name }
  ({ st with scores := scores1 }, true)

/-- Embeds `score` (bot.py:314-320): for an unknown user, create `{name, 0}` and
`save_scores`; for a known user, reply with the stored score without writing.
Returns (new state, whether `save_scores` was called, the reported score). -/
def score (st : SysState) (user_id user_name : String) :
    SysState × Bool × Int :=
  match dictGet st.scores user_id with
  | none =>
    ({ st with scores := dictSet st.scores user_id ⟨user_name, 0⟩ }, true, 0)
  | some r => (st, false, r.score)

/-- The comparison both leaderboard handlers sort with:
`sorted(scores.items(), key=lambda x: x[1].get("score", 0), reverse=True)`
orders by score descending ONLY (names play no role). -/
def scoreDescRel (a b : String × ScoreRec) : Prop := b.2.score ≤ a.2.score

instance : DecidableRel scoreDescRel :=
  fun a b => inferInstanceAs (Decidable (b.2.score ≤ a.2.score))

instance : IsTotal (String × ScoreRec) scoreDescRel :=
  ⟨fun a b => (le_total b.2.score a.2.score).imp id id⟩

instance : IsTrans (String × ScoreRec) scoreDescRel :=
  ⟨fun _ _ _ h1 h2 => le_trans h2 h1⟩

/-- Python's `sorted(..., reverse=True)` is a stable sort; a stable sort is
determined by its comparator, so it is embedded as insertion sort with
"earlier element goes first on equal keys". -/
def sortScoresDesc (l : Scores) : Scores := List.insertionSort scoreDescRel l

/-- Embeds `PAGE_SIZE` (bot.py:57). -/
def PAGE_SIZE : Nat := 5

/-- One rendered page of the leaderboard, abstracting the message text:
the clamped 0-based page, the page count, the rendered rows as
(1-based rank, display name, score, "(You)" marker), and the two navigation
affordances. -/
structure LBPage where
  page : Nat
  total_pages : Nat
  rows : List (Nat × String × Int × Bool)
  has_prev : Bool
  has_next : Bool
deriving Repr, DecidableEq

/-- Embeds `build_leaderboard_page` (bot.py:163-196): `total_pages =
max(1, ceil(total/PAGE_SIZE))` (with `ceil(n/5) = (n+4)/5` on naturals),
`page = max(0, min(page, total_pages-1))`, slice `[start:start+PAGE_SIZE]`,
ranks numbered from `start+1`, previous iff `page > 0`, next iff
`page < total_pages - 1`. -/
def build_leaderboard_page (sorted_scores : Scores) (page : Int)
    (requester_user_id : String) : LBPage :=
  let total_players := sorted_scores.length
  let total_pages := max 1 ((total_players + PAGE_SIZE - 1) / PAGE_SIZE)
  let p : Nat := (max 0 (min page ((total_pages : Int) - 1))).toNat
  let start := p * PAGE_SIZE
  let players_on_page := (sorted_scores.drop start).take PAGE_SIZE
  { page := p
    total_pages := total_pages
    rows := players_on_page.enum.map
      (fun pr => (start + 1 + pr.1, pr.2.2.name, pr.2.2.score,
                  pr.2.1 == requester_user_id))
    has_prev := decide (0 < p)
    has_next := decide (p < total_pages - 1) }

/-- Embeds `leaderboard` (bot.py:322-329): `none` models the "Leaderboard is empty"
message; otherwise sort fresh and render page 0. -/
def leaderboard (st : SysState) (requester : String) : Option LBPage :=
  if st.scores.isEmpty then none
  else some (build_leaderboard_page (sortScoresDesc st.scores) 0 requester)

/-- Embeds `leaderboard_page_handler` (bot.py:331-343): re-sort fresh and render the
requested page (the page number parsed from the callback payload, 0 on a
parse failure, is taken as the `page` argument). -/
def leaderboard_page_handler (st : SysState) (requester : String)
    (page : Int) : LBPage :=
  build_leaderboard_page (sortScoresDesc st.scores) page requester

/-- The observable states of `scores.json` when `load_scores` runs:
absent, present but not valid JSON, an unexpected I/O error, or parsed
content. -/
inductive ScoresFileState
  | missing
  | invalidJson
  | otherError
  | parsed (v : Scores)
deriving Repr, DecidableEq

/-- Embeds `load_scores` (bot.py:73-86).  Every branch RETURNS (missing file,
corrupt JSON and unexpected errors all yield `{}` after a log line);
`Except.error` would model `SystemExit`, and no branch produces it. -/
def load_scores : ScoresFileState → Except Unit Scores
  | .missing => .ok []
  | .invalidJson => .ok []
  | .otherError => .ok []
  | .parsed v => .ok v

/-- The observable states of `questions.json` when `load_questions` runs.
`parsedNonDict` is JSON that parses but is not an object (the
`isinstance(data, dict)` check); `parsed v` is a parsed object. -/
inductive QuestionsFileState
  | missing
  | invalidJson
  | otherError
  | parsedNonDict
  | parsed (v : Catalog)
deriving Repr, DecidableEq

/-- Embeds `load_questions` (bot.py:98-118): `raise SystemExit(1)` (embedded as
`Except.error ()`) when the file is missing, unreadable, invalid JSON, not a
dict, or an empty dict; otherwise the parsed catalog is returned unchanged. -/
def load_questions : QuestionsFileState → Except Unit Catalog
  | .missing => .error ()
  | .invalidJson => .error ()
  | .otherError => .error ()
  | .parsedNonDict => .error ()
  | .parsed d => if d.isEmpty then .error () else .ok d

/-! ## Helper lemmas -/

theorem dictGet_dictSet_self {α : Type} (d : List (String × α)) (k : String)
    (v : α) : dictGet (dictSet d k v) k = some v := by
  induction d with
  | nil => simp [dictGet, dictSet]
  | cons p rest ih =>
    rw [dictSet]
    by_cases h : (p.1 == k) = true
    · rw [if_pos h]
      simp [dictGet, List.find?]
    · rw [if_neg h]
      have h' : (p.1 == k) = false := by simpa using h
      simpa [dictGet, List.find?, h'] using ih

theorem dictGet_dictSet_ne {α : Type} (d : List (String × α)) (k k' : String)
    (v : α) (hne : k' ≠ k) : dictGet (dictSet d k v) k' = dictGet d k' := by
  have hkk' : (k == k') = false := by simpa using Ne.symm hne
  induction d with
  | nil => simp [dictGet, dictSet, List.find?, hkk']
  | cons p rest ih =>
    rw [dictSet]
    by_cases h : (p.1 == k) = true
    · have hp : p.1 = k := by simpa using h
      have hp' : (p.1 == k') = false := by
        simpa [hp] using Ne.symm hne
      rw [if_pos h]
      simp [dictGet, List.find?, hkk', hp']
    · rw [if_neg h]
      by_cases h' : (p.1 == k') = true
      · simp [dictGet, List.find?, h']
      · have h'' : (p.1 == k') = false := by simpa using h'
        simpa [dictGet, List.find?, h''] using ih

theorem valOf_dictSet_self (s : Scores) (k : String) (r : ScoreRec) :
    valOf (dictSet s k r) k = r.score := by
  simp [valOf, dictGet_dictSet_self]

theorem valOf_dictSet_ne (s : Scores) (k k' : String) (r : ScoreRec)
    (hne : k' ≠ k) : valOf (dictSet s k r) k' = valOf s k' := by
  simp [valOf, dictGet_dictSet_ne _ _ _ _ hne]

theorem get_new_question_eq (quiz_data : Catalog) (pick : Nat) (cat : String)
    (qs : List Question) (hget : dictGet quiz_data cat = some qs)
    (hne : qs ≠ []) :
    ∃ h : pick % qs.length < qs.length,
      get_new_question quiz_data pick cat
        = some (qs.get ⟨pick % qs.length, h⟩) := by
  have hlen : 0 < qs.length := List.length_pos.mpr hne
  refine ⟨Nat.mod_lt _ hlen, ?_⟩
  simp [get_new_question, hget, hne, List.getElem?_eq_getElem]

theorem filter_orderedInsert (c : Int) (a : String × ScoreRec) (s : Scores) :
    (List.orderedInsert scoreDescRel a s).filter (fun p => p.2.score == c)
      = if a.2.score == c
        then a :: s.filter (fun p => p.2.score == c)
        else s.filter (fun p => p.2.score == c) := by
  induction s with
  | nil => by_cases ha : a.2.score = c <;> simp [List.orderedInsert, ha]
  | cons b t ih =>
    by_cases hr : scoreDescRel a b
    · rw [List.orderedInsert, if_pos hr]
      by_cases ha : a.2.score = c
      · have ha' : (a.2.score == c) = true := by simpa using ha
        simp [List.filter, ha']
      · have ha' : (a.2.score == c) = false := by simpa using ha
        simp [List.filter, ha']
    · have hlt : a.2.score < b.2.score := by
        simpa [scoreDescRel, not_le] using hr
      rw [List.orderedInsert, if_neg hr]
      by_cases ha : a.2.score = c
      · have ha' : (a.2.score == c) = true := by simpa using ha
        have hb : ¬ b.2.score = c := by
          intro hb
          exact absurd (le_of_eq (hb.trans ha.symm)) (not_le_of_lt hlt)
        have hb' : (b.2.score == c) = false := by simpa using hb
        simp [List.filter, ha', hb', ih]
      · have ha' : (a.2.score == c) = false := by simpa using ha
        by_cases hb : b.2.score = c
        · have hb' : (b.2.score == c) = true := by simpa using hb
          simp [List.filter, ha', hb', ih]
        · have hb' : (b.2.score == c) = false := by simpa using hb
          simp [List.filter, ha', hb', ih]

/-- A stable descending sort keeps, within each score class, the snapshot's
original (insertion) order: filtering any fixed score value commutes with the
sort. -/
theorem filter_sortScoresDesc (c : Int) (l : Scores) :
    (sortScoresDesc l).filter (fun p => p.2.score == c)
      = l.filter (fun p => p.2.score == c) := by
  induction l with
  | nil => rfl
  | cons a t ih =>
    rw [sortScoresDesc, List.insertionSort, filter_orderedInsert]
    simp only [sortScoresDesc] at ih
    by_cases ha : a.2.score = c
    · have ha' : (a.2.score == c) = true := by simpa using ha
      simp [List.filter, ha', ih]
    · have ha' : (a.2.score == c) = false := by simpa using ha
      simp [List.filter, ha', ih]

/-- Lemma: `next_question_handler` either leaves the state untouched or only
replaces `current_question`; in particular it never clears the session and
never writes the score store. -/
theorem next_question_handler_state (quiz_data : Catalog) (st : SysState)
    (data : String) (pick : Nat) :
    (next_question_handler quiz_data st data pick).1 = st ∨
    ∃ q, (next_question_handler quiz_data st data pick).1
        = { st with ud := { st.ud with current_question := some q } } := by
  rw [next_question_handler]
  split
  · exact Or.inl rfl
  · split
    · exact Or.inl rfl
    · split
      · exact Or.inl rfl
      · split
        · exact Or.inl rfl
        · exact Or.inr ⟨_, rfl⟩

/-- Lemma: `select_category_handler` never writes the score store. -/
theorem select_category_handler_scores (quiz_data : Catalog) (st : SysState)
    (data : String) (pick : Nat) :
    (select_category_handler quiz_data st data pick).1.scores = st.scores := by
  simp only [select_category_handler]
  split
  · rfl
  · split <;> rfl

/-- With an active, non-empty category, `next_question_handler` always
delivers the draw `qs[pick % qs.length]` as the next question. -/
theorem next_question_delivers (quiz_data : Catalog) (st : SysState)
    (cat : String) (qs : List Question) (pick : Nat)
    (hcat : st.ud.current_category = some cat) (hne : cat ≠ "")
    (hget : dictGet quiz_data cat = some qs) (hq : qs ≠ []) :
    ∃ h : pick % qs.length < qs.length,
      next_question_handler quiz_data st "next_question" pick
        = ({ st with
              ud := { st.ud with
                       current_question := some (qs.get ⟨pick % qs.length, h⟩) } },
           NextReply.questionSent (qs.get ⟨pick % qs.length, h⟩)) := by
  obtain ⟨hlt, hgq⟩ := get_new_question_eq quiz_data pick cat qs hget hq
  have hne' : (cat == "") = false := by simpa using hne
  exact ⟨hlt, by simp [next_question_handler, hcat, hne', hgq]⟩

/-! ## Claim theorems -/

/-- Claim C1, counterexample.  The claim says a second `SubmitAnswer` for the
same delivered question is a no-op that leaves the score alone and emits no
second response.  In the code `button_handler` neither clears
`current_question` nor checks any answered flag, so submitting the correct
answer twice for the one delivered question scores 2 points and emits a
second outcome response. -/
theorem c1_counterexample :
    valOf (button_handler
        (button_handler
          ⟨[("7", ⟨"N", 0⟩)], ⟨some "geo", some ⟨"Q", ["A", "B"], "A"⟩⟩⟩
          "7" "N" "A").1
        "7" "N" "A").1.scores "7" = 2 ∧
    (button_handler
        (button_handler
          ⟨[("7", ⟨"N", 0⟩)], ⟨some "geo", some ⟨"Q", ["A", "B"], "A"⟩⟩⟩
          "7" "N" "A").1
        "7" "N" "A").2.1 = AnswerReply.outcome true "A" 2 := by
  decide

/-- Claim C1, amended: `button_handler` performs no at-most-once resolution:
there is no answered flag and no timeout path, `current_question` survives a
resolution, and every further invocation of the handler for the same
delivered question re-runs the scoring arithmetic — a repeated correct
submission adds 1 again (2 in total) and emits a second outcome response.
The only no-arithmetic case is the absence of any current question. -/
theorem c1_duplicate_submit_rescores (st : SysState) (uid name sel : String)
    (q : Question) (hq : st.ud.current_question = some q)
    (hsel : sel = q.answer) :
    valOf (button_handler (button_handler st uid name sel).1
        uid name sel).1.scores uid
      = valOf st.scores uid + 2 ∧
    (button_handler (button_handler st uid name sel).1 uid name sel).2.1
      = AnswerReply.outcome true q.answer (valOf st.scores uid + 2) := by
  have hsel' : (sel == q.answer) = true := by simpa using hsel
  constructor
  · simp [button_handler, hq, hsel', valOf_dictSet_self]
    omega
  · simp [button_handler, hq, hsel', valOf_dictSet_self]
    omega

/-- Claim C1 witness: the amended theorem applied at a concrete state. -/
theorem c1_witness :
    valOf (button_handler (button_handler
        ⟨[], ⟨some "geo", some ⟨"Q", ["A", "B"], "A"⟩⟩⟩ "7" "N" "A").1
        "7" "N" "A").1.scores "7"
      = valOf ([] : Scores) "7" + 2 ∧
    (button_handler (button_handler
        ⟨[], ⟨some "geo", some ⟨"Q", ["A", "B"], "A"⟩⟩⟩ "7" "N" "A").1
        "7" "N" "A").2.1
      = AnswerReply.outcome true "A" (valOf ([] : Scores) "7" + 2) :=
  c1_duplicate_submit_rescores
    ⟨[], ⟨some "geo", some ⟨"Q", ["A", "B"], "A"⟩⟩⟩ "7" "N" "A"
    ⟨"Q", ["A", "B"], "A"⟩ rfl rfl

/-- Claim C10: the `score` query is not read-only.  For a user with no record
it creates `{name, score: 0}` and calls `save_scores` (the `true`), reporting
0; for a user with a record it leaves the store unchanged, does not save, and
reports the stored score. -/
theorem c10_score_query_upserts (st : SysState) (uid name : String) :
    (dictGet st.scores uid = none →
        score st uid name
          = ({ st with scores := dictSet st.scores uid ⟨name, 0⟩ }, true, 0)) ∧
    (∀ r, dictGet st.scores uid = some r →
        score st uid name = (st, false, r.score)) := by
  constructor
  · intro h
    simp [score, h]
  · intro r h
    simp [score, h]

/-- Claim C10 witness: both branches of the theorem at concrete stores. -/
theorem c10_witness :
    score ⟨[], ⟨none, none⟩⟩ "7" "N"
      = (⟨dictSet [] "7" ⟨"N", 0⟩, ⟨none, none⟩⟩, true, 0) ∧
    score ⟨[("7", ⟨"N", 3⟩)], ⟨none, none⟩⟩ "7" "X"
      = (⟨[("7", ⟨"N", 3⟩)], ⟨none, none⟩⟩, false, 3) :=
  ⟨(c10_score_query_upserts ⟨[], ⟨none, none⟩⟩ "7" "N").1 rfl,
   (c10_score_query_upserts ⟨[("7", ⟨"N", 3⟩)], ⟨none, none⟩⟩ "7" "X").2
     ⟨"N", 3⟩ rfl⟩

/-- Claim C2, counterexample.  With category `c = [Q0, Q1, Q2]`, selecting the
category and then advancing (with the random draw landing on index 0 both
times, a possible outcome of `random.choice`) delivers Q0 and then Q0 again —
not Q0, Q1, Q2 in order without repetition. -/
theorem c2_counterexample :
    (select_category_handler
        [("c", [⟨"Q0", ["A", "B"], "A"⟩, ⟨"Q1", ["C", "D"], "C"⟩,
                ⟨"Q2", ["E", "F"], "E"⟩])]
        ⟨[], ⟨none, none⟩⟩ "category_c" 0).2
      = SelectReply.questionSent "c" ⟨"Q0", ["A", "B"], "A"⟩ ∧
    (next_question_handler
        [("c", [⟨"Q0", ["A", "B"], "A"⟩, ⟨"Q1", ["C", "D"], "C"⟩,
                ⟨"Q2", ["E", "F"], "E"⟩])]
        (select_category_handler
          [("c", [⟨"Q0", ["A", "B"], "A"⟩, ⟨"Q1", ["C", "D"], "C"⟩,
                  ⟨"Q2", ["E", "F"], "E"⟩])]
          ⟨[], ⟨none, none⟩⟩ "category_c" 0).1 "next_question" 0).2
      = NextReply.questionSent ⟨"Q0", ["A", "B"], "A"⟩ ∧
    (⟨"Q0", ["A", "B"], "A"⟩ : Question) ≠ ⟨"Q1", ["C", "D"], "C"⟩ := by
  decide

/-- Claim C2, amended: question progression is randomized, not sequential.
The code keeps no index; every advance draws `random.choice` from the whole
category, so each delivery is some member of the category and every member —
including the one just served — is a possible next delivery at every step. -/
theorem c2_advance_is_random_draw (quiz_data : Catalog) (st : SysState)
    (cat : String) (qs : List Question)
    (hcat : st.ud.current_category = some cat) (hne : cat ≠ "")
    (hget : dictGet quiz_data cat = some qs) (hq : qs ≠ []) :
    (∀ pick, ∃ q ∈ qs,
        next_question_handler quiz_data st "next_question" pick
          = ({ st with
                ud := { st.ud with current_question := some q } },
             NextReply.questionSent q)) ∧
    (∀ i, ∀ h : i < qs.length,
        next_question_handler quiz_data st "next_question" i
          = ({ st with
                ud := { st.ud with current_question := some (qs.get ⟨i, h⟩) } },
             NextReply.questionSent (qs.get ⟨i, h⟩))) := by
  constructor
  · intro pick
    obtain ⟨hlt, heq⟩ := next_question_delivers quiz_data st cat qs pick hcat hne hget hq
    exact ⟨qs.get ⟨pick % qs.length, hlt⟩, qs.get_mem _ _, heq⟩
  · intro i h
    obtain ⟨hlt, heq⟩ := next_question_delivers quiz_data st cat qs i hcat hne hget hq
    have hfin : (⟨i % qs.length, hlt⟩ : Fin qs.length) = ⟨i, h⟩ := by
      apply Fin.ext
      simpa using Nat.mod_eq_of_lt h
    rw [heq, hfin]

/-- Claim C2 witness: the amended theorem at a singleton category, pick 0. -/
theorem c2_witness :
    next_question_handler [("c", [⟨"Q0", ["A", "B"], "A"⟩])]
        ⟨[], ⟨some "c", none⟩⟩ "next_question" 0
      = (⟨[], ⟨some "c", some ⟨"Q0", ["A", "B"], "A"⟩⟩⟩,
         NextReply.questionSent ⟨"Q0", ["A", "B"], "A"⟩) := by
  have h := (c2_advance_is_random_draw [("c", [⟨"Q0", ["A", "B"], "A"⟩])]
      ⟨[], ⟨some "c", none⟩⟩ "c" [⟨"Q0", ["A", "B"], "A"⟩]
      rfl (by decide) (by decide) (by decide)).2 0 (by decide)
  simpa using h

/-- Claim C3, counterexample.  The leaderboard sort key is the score alone;
with the records inserted in the order B:10, A:10, C:5 the rendered order is
B, A, C — the tie between A and B is NOT broken by display name ascending. -/
theorem c3_counterexample :
    ((leaderboard_page_handler
        ⟨[("1", ⟨"B", 10⟩), ("2", ⟨"A", 10⟩), ("3", ⟨"C", 5⟩)], ⟨none, none⟩⟩
        "9" 0).rows.map (fun r => r.2.1) = ["B", "A", "C"]) ∧
    (["B", "A", "C"] : List String) ≠ ["A", "B", "C"] := by
  decide

/-- Claim C3, amended: the leaderboard order is score descending with ties
kept in the snapshot's insertion order (Python's `sorted` is stable), which
is deterministic for a fixed snapshot: the sorted list is a permutation of
the snapshot, scores are non-increasing along it, each score class keeps its
original order, and the page handler renders exactly this fresh sort. -/
theorem c3_sort_is_stable_score_desc (st : SysState) (req : String)
    (page : Int) :
    (sortScoresDesc st.scores).Perm st.scores ∧
    List.Sorted scoreDescRel (sortScoresDesc st.scores) ∧
    (∀ c : Int, (sortScoresDesc st.scores).filter (fun p => p.2.score == c)
        = st.scores.filter (fun p => p.2.score == c)) ∧
    leaderboard_page_handler st req page
      = build_leaderboard_page (sortScoresDesc st.scores) page req :=
  ⟨List.perm_insertionSort _ _, List.sorted_insertionSort _ _,
   fun c => filter_sortScoresDesc c st.scores, rfl⟩

/-- Claim C4, counterexample.  After the only question of category `c` has
been delivered (and resolved), the claim wants the next Advance to report
"category complete" and clear the session; the code instead re-delivers a
question from the category and keeps the session exactly as it was. -/
theorem c4_counterexample :
    next_question_handler [("c", [⟨"Q0", ["A", "B"], "A"⟩])]
        ⟨[("7", ⟨"N", 1⟩)], ⟨some "c", some ⟨"Q0", ["A", "B"], "A"⟩⟩⟩
        "next_question" 0
      = (⟨[("7", ⟨"N", 1⟩)], ⟨some "c", some ⟨"Q0", ["A", "B"], "A"⟩⟩⟩,
         NextReply.questionSent ⟨"Q0", ["A", "B"], "A"⟩) := by
  decide

/-- Claim C4, amended: there is no completion state.  `next_question_handler`
never mutates the score store, never clears `current_category`, and with an
active non-empty category it always delivers another question; its only
fallback replies are "select a category first" (no/empty category in the
session) and "no more questions" (category missing from the catalog or
empty), never "category complete". -/
theorem c4_no_completion_state (quiz_data : Catalog) (st : SysState)
    (data : String) (pick : Nat) :
    (next_question_handler quiz_data st data pick).1.scores = st.scores ∧
    (next_question_handler quiz_data st data pick).1.ud.current_category
      = st.ud.current_category ∧
    (∀ cat qs, data = "next_question" → st.ud.current_category = some cat →
        cat ≠ "" → dictGet quiz_data cat = some qs → qs ≠ [] →
        ∃ q ∈ qs, (next_question_handler quiz_data st data pick).2
          = NextReply.questionSent q) := by
  refine ⟨?_, ?_, ?_⟩
  · rcases next_question_handler_state quiz_data st data pick with h | ⟨q, h⟩ <;>
      simp [h]
  · rcases next_question_handler_state quiz_data st data pick with h | ⟨q, h⟩ <;>
      simp [h]
  · intro cat qs hdata hcat hne hget hq
    subst hdata
    obtain ⟨hlt, heq⟩ := next_question_delivers quiz_data st cat qs pick hcat hne hget hq
    exact ⟨qs.get ⟨pick % qs.length, hlt⟩, qs.get_mem _ _, by rw [heq]⟩

/-- Claim C4 witness: the amended theorem at a concrete state and catalog. -/
theorem c4_witness :
    (next_question_handler [("c", [⟨"Q0", ["A", "B"], "A"⟩])]
        ⟨[("7", ⟨"N", 1⟩)], ⟨some "c", some ⟨"Q0", ["A", "B"], "A"⟩⟩⟩
        "next_question" 1).1.scores = [("7", ⟨"N", 1⟩)] ∧
    ∃ q ∈ [(⟨"Q0", ["A", "B"], "A"⟩ : Question)],
      (next_question_handler [("c", [⟨"Q0", ["A", "B"], "A"⟩])]
          ⟨[("7", ⟨"N", 1⟩)], ⟨some "c", some ⟨"Q0", ["A", "B"], "A"⟩⟩⟩
          "next_question" 1).2 = NextReply.questionSent q :=
  ⟨(c4_no_completion_state [("c", [⟨"Q0", ["A", "B"], "A"⟩])]
      ⟨[("7", ⟨"N", 1⟩)], ⟨some "c", some ⟨"Q0", ["A", "B"], "A"⟩⟩⟩
      "next_question" 1).1,
   (c4_no_completion_state [("c", [⟨"Q0", ["A", "B"], "A"⟩])]
      ⟨[("7", ⟨"N", 1⟩)], ⟨some "c", some ⟨"Q0", ["A", "B"], "A"⟩⟩⟩
      "next_question" 1).2.2 "c" [⟨"Q0", ["A", "B"], "A"⟩]
      rfl rfl (by decide) (by decide) (by decide)⟩

/-- Claim C5, counterexample.  Selecting an existing but empty category `c`
reports "no questions available" but has already written
`current_category := "c"` into the session: the session state is mutated. -/
theorem c5_counterexample :
    select_category_handler [("c", [])] ⟨[], ⟨none, none⟩⟩ "category_c" 0
      = (⟨[], ⟨some "c", none⟩⟩, SelectReply.noQuestions) ∧
    (⟨some "c", none⟩ : UserData) ≠ ⟨none, none⟩ := by
  decide

/-- Claim C5, amended: `select_category_handler` never touches the score
store.  For an unknown category it reports the error and leaves ALL state
unchanged.  For an existing but empty category it reports "no questions
available" with the score store unchanged, but it has already stored the
selected category in the session (the `current_category` write happens
before the emptiness check). -/
theorem c5_select_category_errors (quiz_data : Catalog) (st : SysState)
    (data : String) (pick : Nat) :
    (select_category_handler quiz_data st data pick).1.scores = st.scores ∧
    (dictGet quiz_data (pyReplace data "category_" "") = none →
        select_category_handler quiz_data st data pick
          = (st, SelectReply.unknownCategory)) ∧
    (dictGet quiz_data (pyReplace data "category_" "") = some [] →
        select_category_handler quiz_data st data pick
          = ({ st with
                ud := { st.ud with
                         current_category :=
                           some (pyReplace data "category_" "") } },
             SelectReply.noQuestions)) := by
  refine ⟨select_category_handler_scores quiz_data st data pick, ?_, ?_⟩
  · intro h
    simp [select_category_handler, h]
  · intro h
    simp [select_category_handler, h, get_new_question]

/-- Claim C5 witness: the amended theorem at an unknown and at an empty
category. -/
theorem c5_witness :
    select_category_handler [("c", [])] ⟨[], ⟨none, none⟩⟩ "category_x" 0
      = (⟨[], ⟨none, none⟩⟩, SelectReply.unknownCategory) ∧
    select_category_handler [("c", [])] ⟨[], ⟨none, none⟩⟩ "category_c" 0
      = ({ (⟨[], ⟨none, none⟩⟩ : SysState) with
            ud := { (⟨none, none⟩ : UserData) with
                     current_category := some (pyReplace "category_c" "category_" "") } },
         SelectReply.noQuestions) :=
  ⟨(c5_select_category_errors [("c", [])] ⟨[], ⟨none, none⟩⟩ "category_x" 0).2.1
     (by decide),
   (c5_select_category_errors [("c", [])] ⟨[], ⟨none, none⟩⟩ "category_c" 0).2.2
     (by decide)⟩

/-- Claim C6, counterexample.  A missing or unparseable `scores.json` does
NOT abort startup: `load_scores` returns the empty store (`Except.ok []`
rather than the `Except.error ()` that models `SystemExit`) and the process
goes on to serve with empty scores. -/
theorem c6_counterexample :
    load_scores ScoresFileState.missing = Except.ok ([] : Scores) ∧
    load_scores ScoresFileState.invalidJson = Except.ok ([] : Scores) ∧
    load_scores ScoresFileState.missing ≠ Except.error () :=
  ⟨rfl, rfl, fun h => Except.noConfusion h⟩

/-- Claim C6, amended: a missing, corrupt, or unreadable durable score store
is tolerated, not fatal: `load_scores` succeeds on every file state,
returning the parsed store when the file parses and the empty store (after a
logged warning) otherwise; startup continues in that degraded state. -/
theorem c6_missing_store_not_fatal (fs : ScoresFileState) :
    (∃ v, load_scores fs = Except.ok v) ∧
    (∀ v, fs = ScoresFileState.parsed v → load_scores fs = Except.ok v) ∧
    ((fs = ScoresFileState.missing ∨ fs = ScoresFileState.invalidJson ∨
        fs = ScoresFileState.otherError) →
      load_scores fs = Except.ok ([] : Scores)) := by
  cases fs <;> simp [load_scores]

/-- Claim C6 witness: the amended theorem applied to the missing-file state. -/
theorem c6_witness :
    load_scores ScoresFileState.missing = Except.ok ([] : Scores) :=
  (c6_missing_store_not_fatal ScoresFileState.missing).2.2 (Or.inl rfl)

/-- Claim C7: for every snapshot and every requested page (negative and
out-of-range included) the paginator clamps the page into
`[0, ceil(total/5) - 1]` — page 0 when the snapshot is empty — and in
particular, with 12 entries, page 10 renders the same page as page 2 and
page -1 renders page 0. -/
theorem c7_page_clamp (ss : Scores) (req : String) (page : Int) :
    (ss.length = 0 → (build_leaderboard_page ss page req).page = 0) ∧
    (0 < ss.length →
        (build_leaderboard_page ss page req).page + 1 ≤ (ss.length + 4) / 5) ∧
    (ss.length = 12 →
        build_leaderboard_page ss 10 req = build_leaderboard_page ss 2 req ∧
        (build_leaderboard_page ss (-1) req).page = 0) := by
  refine ⟨?_, ?_, ?_⟩
  · intro h
    simp [build_leaderboard_page, PAGE_SIZE, h]
  · intro h
    simp only [build_leaderboard_page, PAGE_SIZE]
    omega
  · intro h
    constructor
    · simp [build_leaderboard_page, PAGE_SIZE, h]
    · simp [build_leaderboard_page, PAGE_SIZE, h]

/-- Claim C7 witness: the theorem applied to a concrete 12-entry snapshot and
to the empty snapshot. -/
theorem c7_witness :
    build_leaderboard_page
        [("u1", ⟨"A", 12⟩), ("u2", ⟨"B", 11⟩), ("u3", ⟨"C", 10⟩),
         ("u4", ⟨"D", 9⟩), ("u5", ⟨"E", 8⟩), ("u6", ⟨"F", 7⟩),
         ("u7", ⟨"G", 6⟩), ("u8", ⟨"H", 5⟩), ("u9", ⟨"I", 4⟩),
         ("u10", ⟨"J", 3⟩), ("u11", ⟨"K", 2⟩), ("u12", ⟨"L", 1⟩)] 10 "u1"
      = build_leaderboard_page
        [("u1", ⟨"A", 12⟩), ("u2", ⟨"B", 11⟩), ("u3", ⟨"C", 10⟩),
         ("u4", ⟨"D", 9⟩), ("u5", ⟨"E", 8⟩), ("u6", ⟨"F", 7⟩),
         ("u7", ⟨"G", 6⟩), ("u8", ⟨"H", 5⟩), ("u9", ⟨"I", 4⟩),
         ("u10", ⟨"J", 3⟩), ("u11", ⟨"K", 2⟩), ("u12", ⟨"L", 1⟩)] 2 "u1" ∧
    (build_leaderboard_page ([] : Scores) (-7) "u1").page = 0 :=
  ⟨((c7_page_clamp
      [("u1", ⟨"A", 12⟩), ("u2", ⟨"B", 11⟩), ("u3", ⟨"C", 10⟩),
       ("u4", ⟨"D", 9⟩), ("u5", ⟨"E", 8⟩), ("u6", ⟨"F", 7⟩),
       ("u7", ⟨"G", 6⟩), ("u8", ⟨"H", 5⟩), ("u9", ⟨"I", 4⟩),
       ("u10", ⟨"J", 3⟩), ("u11", ⟨"K", 2⟩), ("u12", ⟨"L", 1⟩)] "u1" 0).2.2
      (by decide)).1,
   (c7_page_clamp ([] : Scores) "u1" (-7)).1 rfl⟩

/-- Claim C8: `load_questions` succeeds exactly on a parsed, non-empty JSON
object and then returns the catalog unchanged; a missing file, invalid JSON,
a read error, a non-object, or an empty object all end in `SystemExit`
(`Except.error ()`) before the bot starts serving. -/
theorem c8_questions_fail_fast (fs : QuestionsFileState) (d : Catalog) :
    load_questions fs = Except.ok d ↔
      (fs = QuestionsFileState.parsed d ∧ d ≠ []) := by
  cases fs with
  | parsed v =>
    by_cases hv : v.isEmpty
    · have hv' : v = [] := by simpa using hv
      simp [load_questions, hv, hv']
    · have hv' : v ≠ [] := by simpa using hv
      simp only [load_questions, hv, Bool.false_eq_true, if_false]
      constructor
      · intro hok
        have : v = d := by simpa using hok
        subst this
        exact ⟨rfl, hv'⟩
      · rintro ⟨hpd, _⟩
        have : v = d := by
          injection hpd
        simp [this]
  | missing => simp [load_questions]
  | invalidJson => simp [load_questions]
  | otherError => simp [load_questions]
  | parsedNonDict => simp [load_questions]

/-- Claim C9: per-handler score arithmetic.  `start` and the score query never
change any observed score (a fresh record is created at 0, the observed
default); an answer submission without a current question changes nothing;
with a current question it changes only the submitter's score and only by
+1, exactly when the selected option equals the correct one; advancing and
selecting a category never write the store.  In particular no handler ever
decreases a score or moves it by any amount other than 1. -/
theorem c9_score_increment_invariant (quiz_data : Catalog) (st : SysState)
    (uid name sel u data : String) (pick : Nat) :
    valOf (start st uid name).1.scores u = valOf st.scores u ∧
    (dictGet st.scores uid = none →
        dictGet (start st uid name).1.scores uid = some ⟨name, 0⟩) ∧
    valOf (score st uid name).1.scores u = valOf st.scores u ∧
    (st.ud.current_question = none →
        button_handler st uid name sel = (st, AnswerReply.startNewQuiz, false)) ∧
    (∀ q, st.ud.current_question = some q →
        valOf (button_handler st uid name sel).1.scores u
          = valOf st.scores u
            + (if u = uid ∧ sel = q.answer then 1 else 0)) ∧
    valOf (next_question_handler quiz_data st data pick).1.scores u
      = valOf st.scores u ∧
    valOf (select_category_handler quiz_data st data pick).1.scores u
      = valOf st.scores u := by
  refine ⟨?_, ?_, ?_, ?_, ?_, ?_, ?_⟩
  · by_cases hu : u = uid
    · subst hu
      cases hg : dictGet st.scores u with
      | none =>
        have h1 : (start st u name).1.scores = dictSet st.scores u ⟨name, 0⟩ := by
          simp [start, hg]
        rw [h1, valOf_dictSet_self]
        simp [valOf, hg]
      | some r =>
        have h1 : (start st u name).1.scores
            = dictSet st.scores u ⟨name, r.score⟩ := by
          simp [start, hg]
        rw [h1, valOf_dictSet_self]
        simp [valOf, hg]
    · cases hg : dictGet st.scores uid with
      | none => simp [start, hg, valOf_dictSet_ne _ _ _ _ hu]
      | some r => simp [start, hg, valOf_dictSet_ne _ _ _ _ hu]
  · intro hg
    simp [start, hg, dictGet_dictSet_self]
  · by_cases hu : u = uid
    · subst hu
      cases hg : dictGet st.scores u with
      | none =>
        have h1 : (score st u name).1.scores = dictSet st.scores u ⟨name, 0⟩ := by
          simp [score, hg]
        rw [h1, valOf_dictSet_self]
        simp [valOf, hg]
      | some r => simp [score, hg]
    · cases hg : dictGet st.scores uid with
      | none => simp [score, hg, valOf_dictSet_ne _ _ _ _ hu]
      | some r => simp [score, hg]
  · intro h
    simp [button_handler, h]
  · intro q hq
    by_cases hsel : sel = q.answer
    · have hsel' : (sel == q.answer) = true := by simpa using hsel
      by_cases hu : u = uid
      · subst hu
        simp [button_handler, hq, hsel', valOf_dictSet_self, hsel]
      · simp [button_handler, hq, hsel', valOf_dictSet_ne _ _ _ _ hu, hu]
    · have hsel' : (sel == q.answer) = false := by simpa using hsel
      by_cases hu : u = uid
      · subst hu
        simp [button_handler, hq, hsel', valOf_dictSet_self, hsel]
      · simp [button_handler, hq, hsel', valOf_dictSet_ne _ _ _ _ hu, hsel]
  · rcases next_question_handler_state quiz_data st data pick with h | ⟨q, h⟩ <;>
      simp [h]
  · rw [valOf, select_category_handler_scores, valOf]

/-- Claim C9 witness: the submission conjunct at a correct and an incorrect
concrete submission, and the creation conjunct at a fresh user. -/
theorem c9_witness :
    valOf (button_handler
        ⟨[], ⟨some "c", some ⟨"Q", ["A", "B"], "A"⟩⟩⟩ "7" "N" "A").1.scores "7"
      = valOf ([] : Scores) "7"
        + (if ("7" : String) = "7" ∧ ("A" : String) = "A" then 1 else 0) ∧
    valOf (button_handler
        ⟨[], ⟨some "c", some ⟨"Q", ["A", "B"], "A"⟩⟩⟩ "7" "N" "B").1.scores "7"
      = valOf ([] : Scores) "7"
        + (if ("7" : String) = "7" ∧ ("B" : String) = "A" then 1 else 0) ∧
    dictGet (start ⟨[], ⟨none, none⟩⟩ "7" "N").1.scores "7"
      = some ⟨"N", 0⟩ :=
  ⟨(c9_score_increment_invariant [] ⟨[], ⟨some "c", some ⟨"Q", ["A", "B"], "A"⟩⟩⟩
      "7" "N" "A" "7" "x" 0).2.2.2.2.1 ⟨"Q", ["A", "B"], "A"⟩ rfl,
   (c9_score_increment_invariant [] ⟨[], ⟨some "c", some ⟨"Q", ["A", "B"], "A"⟩⟩⟩
      "7" "N" "B" "7" "x" 0).2.2.2.2.1 ⟨"Q", ["A", "B"], "A"⟩ rfl,
   (c9_score_increment_invariant [] ⟨[], ⟨none, none⟩⟩
      "7" "N" "A" "7" "x" 0).2.1 rfl⟩

end QuizBot
